import Mathlib

/-!
Verification development for the RfPy per-event receiver-function pipeline
(`src/rfpy/calc/classes.py`).  The Python classes `Meta` and `RFData` are
shallowly embedded: numbers become real numbers, obspy `Stream`/`Trace`
containers become lists of labelled traces, Python attribute absence becomes
`Option`, and a method that can raise becomes a function into `Except PyError`.
External collaborators (obspy filtering/trimming/LQT rotation, numpy FFTs, the
travel-time model, the geodesic solver) are taken as parameters, exactly as the
spec treats them (its section 6).
-/

namespace RfPy

open scoped Classical

/-- Python exception kinds observed by the embedded methods. -/
inductive PyError : Type
  | attributeError : PyError
  | typeError : PyError
  | valueError : PyError
  | indexError : PyError
  | exceptionMsg : String → PyError

/-- One arrival returned by the external travel-time model
(`obspy.taup` is consumed as a black box, spec section 6). -/
structure Arrival where
  time : ℝ
  name : String
  ray_param_sec_degree : ℝ
  incident_angle : ℝ

/-- The try-block of `Meta.__init__` (classes.py lines 113-131).  A single
arrival sets all four arrival attributes from `arrivals[0]`.  An empty list
raises `IndexError` at `arrivals[0]`.  More than one arrival raises `TypeError`
at `print("arrival has many entries:"+arrivals)`, because a `str` cannot be
concatenated with a list; either exception is swallowed by the bare `except`,
which assigns `None` to all four attributes. -/
def resolveArrival : List Arrival → Option Arrival
  | [a] => some a
  | _ => none

/-- The four arrival attributes (`ttime`, `ph`, `slow`, `inc`) produced by
`Meta.__init__`: on success `slow` is the ray parameter divided by 111
(s/degree to s/km); on a swallowed exception all four are `None`. -/
noncomputable def metaFromArrivals (arrivals : List Arrival) :
    Option ℝ × Option String × Option ℝ × Option ℝ :=
  match resolveArrival arrivals with
  | some a =>
      (some a.time, some a.name, some (a.ray_param_sec_degree / 111),
        some a.incident_angle)
  | none => (none, none, none, none)

/-- Metadata attributes of a single receiver-function analysis (`Meta`).
`ttime`/`ph`/`slow`/`inc` are `Option` because `Meta.__init__` leaves them
`None` when the travel-time lookup fails; `snr` is `Option` because the
attribute only exists after `calc_snr` ran; `accept` is the flag set by
`RFData.add_event`. -/
structure MetaS where
  time : ℝ
  dep : ℝ
  lon : ℝ
  lat : ℝ
  mag : ℝ
  epi_dist : ℝ
  az : ℝ
  baz : ℝ
  gac : ℝ
  ttime : Option ℝ
  ph : Option String
  slow : Option ℝ
  inc : Option ℝ
  vp : ℝ
  vs : ℝ
  align : String
  rotated : Bool
  accept : Bool
  snr : Option ℝ

/-- Meta construction as performed by `RFData.add_event`: the geometry
quantities (computed by the external geodesic solver) enter as parameters, the
travel-time model's arrival list yields the four arrival attributes through
`metaFromArrivals`, the constructor defaults are vp=6.0, vs=3.6, align="ZRT",
rotated=False, and `add_event` then sets `accept` to whether `ttime` resolved
(classes.py lines 290-297). -/
noncomputable def addEventMeta (time dep lon lat mag epi_dist az baz gac : ℝ)
    (arrivals : List Arrival) : MetaS :=
  { time := time, dep := dep, lon := lon, lat := lat, mag := mag,
    epi_dist := epi_dist, az := az, baz := baz, gac := gac,
    ttime := (metaFromArrivals arrivals).1,
    ph := (metaFromArrivals arrivals).2.1,
    slow := (metaFromArrivals arrivals).2.2.1,
    inc := (metaFromArrivals arrivals).2.2.2,
    vp := 6, vs := 3.6, align := "ZRT", rotated := false,
    accept := (metaFromArrivals arrivals).1.isSome,
    snr := none }

/-- A single obspy trace: channel code, sampling interval `delta`, the sample
array, and the per-trace stats that `to_stream` attaches. -/
structure TraceR where
  channel : String
  delta : ℝ
  dat : List ℝ
  stats_snr : Option ℝ := none
  stats_slow : Option ℝ := none
  stats_baz : Option ℝ := none
  is_rf : Bool := false

/-- `Stream.select(component=c)[0]`: obspy selects the traces whose channel
code ends with the component letter; taking `[0]` of an empty selection is an
`IndexError`, modelled by `none`. -/
def select (c : Char) (st : List TraceR) : Option TraceR :=
  (st.filter (fun t => t.channel.data.getLastD ' ' == c)).head?

/-- Channel relabelling `tr.stats.channel[:-1] + c`. -/
def relabel (c : Char) (s : String) : String :=
  String.mk (s.data.dropLast ++ [c])

/-- The analysis record `RFData` after `add_event`: `err` is the per-download
error indicator, an attribute that exists only if `download_NEZ` ran (`none`
models the absent attribute, `some b` the attribute with truthiness `b`);
`dataS` is the waveform stream, `rf` the receiver-function stream. -/
structure RFDataS where
  meta : MetaS
  err : Option Bool := none
  dataS : Option (List TraceR) := none
  rf : Option (List TraceR) := none

/-- `RFData.add_NEZ` (classes.py lines 300-350): no-op when the event was
rejected, otherwise requires all of E, N, Z to be selectable and stores the
stream.  It never touches the `err` attribute. -/
def addNEZ (st : List TraceR) (s : RFDataS) : Except PyError RFDataS :=
  if s.meta.accept = false then .ok s
  else
    match select 'E' st, select 'N' st, select 'Z' st with
    | some _, some _, some _ => .ok { s with dataS := some st }
    | _, _, _ => .error (.exceptionMsg "Error: Not all channels are available")

/-- `RFData.download_NEZ` (classes.py lines 353-398): the external
`options.download_data` call's results (the error indicator and the three
traces) enter as parameters; when the event is accepted the method stores the
error indicator in `err` and the traces in `data`. -/
def downloadNEZ (e : Bool) (trZ trN trE : TraceR) (s : RFDataS) :
    Except PyError RFDataS :=
  if s.meta.accept = false then .ok s
  else .ok { s with err := some e, dataS := some [trZ, trN, trE] }

/-- External waveform and spectral primitives consumed by the pipeline and not
implemented by this repository (spec section 6): the obspy band-pass filter
(arguments: freqmin, freqmax, corners, zerophase), obspy `Trace.trim`
(start time, end time), the obspy `ZNE->LQT` rotation (back-azimuth,
inclination), and the numpy forward/inverse FFTs. -/
structure Primitives where
  bandpass : ℝ → ℝ → ℕ → Bool → List ℝ → List ℝ
  trim : ℝ → ℝ → TraceR → TraceR
  rotZNELQT : ℝ → ℝ → List TraceR → List TraceR
  fft : List ℝ → List ℂ
  ifft : List ℂ → List ℂ

/-- Python truthiness of an optional string argument (`if not align`). -/
def truthyS : Option String → Bool
  | none => false
  | some s => !s.isEmpty

/-- Python truthiness of an optional float argument (`if not vp`): `None` and
`0.0` are falsy. -/
noncomputable def truthyR : Option ℝ → Bool
  | none => false
  | some x => if x = 0 then false else true

/-- The vp/vs override logic of the PVH branch of `RFData.rotate`
(classes.py lines 492-495): `if not vp or not vs: vp = self.meta.vp;
vs = self.meta.vs` — if either argument is falsy, both velocities are replaced
by the stored defaults. -/
noncomputable def pvhVelocities (vp vs : Option ℝ) (m : MetaS) : ℝ × ℝ :=
  if truthyR vp = false ∨ truthyR vs = false then (m.vp, m.vs)
  else (vp.getD 0, vs.getD 0)

/-- Radial sample of the NE->RT rotation: the planar rotation of (N, E) by the
back-azimuth angle, at one sample. -/
noncomputable def zrtR (θ n e : ℝ) : ℝ :=
  -e * Real.sin θ - n * Real.cos θ

/-- Transverse sample of the NE->RT rotation. -/
noncomputable def zrtT (θ n e : ℝ) : ℝ :=
  -e * Real.cos θ + n * Real.sin θ

/-- In-place effect of the NE->RT rotation on one trace of the stream: the
N trace is replaced by the radial data and relabelled R, the E trace by the
transverse data relabelled T, and every other trace (the vertical) is left
unchanged. -/
noncomputable def zrtMapTrace (rdat tdat : List ℝ) (tr : TraceR) : TraceR :=
  if tr.channel.data.getLastD ' ' == 'N' then
    { tr with channel := relabel 'R' tr.channel, dat := rdat }
  else if tr.channel.data.getLastD ' ' == 'E' then
    { tr with channel := relabel 'T' tr.channel, dat := tdat }
  else tr

/-- Modelled from the spec: the external waveform-container primitive
`Stream.rotate('NE->RT', back_azimuth=baz)` (obspy, consumed as an external
collaborator — spec section 6 — so its body is not in `src/`).  Per the spec
it rotates the horizontal pair (N,E) into Radial/Transverse by the
back-azimuth angle and leaves the vertical channel unchanged; missing
horizontal channels are a hard failure. -/
noncomputable def rotNERT (baz : ℝ) (st : List TraceR) :
    Except PyError (List TraceR) :=
  match select 'N' st, select 'E' st with
  | some tn, some te =>
      .ok (st.map (zrtMapTrace
        (List.zipWith (zrtR (baz * Real.pi / 180)) tn.dat te.dat)
        (List.zipWith (zrtT (baz * Real.pi / 180)) tn.dat te.dat)))
  | _, _ => .error .valueError

/-- The PVH free-surface transform of `RFData.rotate` (classes.py lines
497-537), applied after the preliminary NE->RT rotation: vertical slownesses
`qp`/`qs`, the 2x2 matrix `[[-m11, m12], [-m21, m22]]` applied sample-by-sample
to the stacked (R, T) vector giving the P and V data, and the H data set to
`-T/2`; channels are relabelled P, V, H. -/
noncomputable def rotatePVH (p vp vs : ℝ) (tz tr1 th1 : TraceR) : List TraceR :=
  let qp := Real.sqrt (1 / vp / vp - p * p)
  let qs := Real.sqrt (1 / vs / vs - p * p)
  let m11 := p * vs * vs / vp
  let m12 := -(1 - 2 * vs * vs * p * p) / (2 * vp * qp)
  let m21 := (1 - 2 * vs * vs * p * p) / (2 * vs * qs)
  let m22 := p * vs
  [ { tz with
      channel := relabel 'P' tz.channel,
      dat := List.zipWith (fun r t => -m11 * r + m12 * t) tr1.dat th1.dat },
    { tr1 with
      channel := relabel 'V' tr1.channel,
      dat := List.zipWith (fun r t => -m21 * r + m22 * t) tr1.dat th1.dat },
    { th1 with
      channel := relabel 'H' th1.channel,
      dat := th1.dat.map (fun x => -x / 2) } ]

/-- `RFData.rotate` (classes.py lines 400-542).  Guards in source order: the
rejected-event no-op, the `err` attribute read (an `AttributeError` when the
attribute was never created), the error-indicator no-op, the already-rotated
exception, the falsy-align fallback, the missing-data exception, then the
three alignment branches. -/
noncomputable def rotate (prim : Primitives) (vp vs : Option ℝ)
    (align : Option String) (s : RFDataS) : Except PyError RFDataS :=
  if s.meta.accept = false then .ok s
  else
    match s.err with
    | none => .error .attributeError
    | some e =>
      if e then .ok s
      else if s.meta.rotated then
        .error (.exceptionMsg "Data are already rotated - aborting")
      else
        let al := if truthyS align then align.getD "" else s.meta.align
        match s.dataS with
        | none => .error (.exceptionMsg "ZNE data are not available - aborting")
        | some st =>
          if st.isEmpty then
            .error (.exceptionMsg "ZNE data are not available - aborting")
          else if al = "ZRT" then
            match rotNERT s.meta.baz st with
            | .error e2 => .error e2
            | .ok st2 =>
                .ok { s with
                  dataS := some st2,
                  meta := { s.meta with align := al, rotated := true } }
          else if al = "LQT" then
            match s.meta.inc with
            | none => .error .typeError
            | some inc =>
                let st2 := prim.rotZNELQT s.meta.baz inc st
                let st3 := st2.map (fun tr =>
                  if tr.channel.data.getLastD ' ' == 'Q' then
                    { tr with dat := tr.dat.map (fun x => -x) }
                  else tr)
                .ok { s with
                  dataS := some st3,
                  meta := { s.meta with align := al, rotated := true } }
          else if al = "PVH" then
            match s.meta.slow with
            | none => .error .typeError
            | some p =>
              match rotNERT s.meta.baz st with
              | .error e2 => .error e2
              | .ok st2 =>
                match select 'Z' st2, select 'R' st2, select 'T' st2 with
                | some tz, some tr2, some th2 =>
                    .ok { s with
                      dataS := some (rotatePVH p
                        (pvhVelocities vp vs s.meta).1
                        (pvhVelocities vp vs s.meta).2 tz tr2 th2),
                      meta := { s.meta with align := al, rotated := true } }
                | _, _, _ => .error .indexError
          else .error (.exceptionMsg "incorrect align argument")

/-- Root mean square `np.sqrt(np.mean(np.square(x)))` of a sample array. -/
noncomputable def rms (l : List ℝ) : ℝ :=
  Real.sqrt ((l.map (fun x => x * x)).sum / l.length)

/-- `RFData.calc_snr` (classes.py lines 544-609).  After the guards it takes
the first channel of the current alignment tag, band-pass filters two copies
(corners=2, zerophase) between `fmin` and `fmax`, trims the signal copy to
`[t1, t1+dt]` and the noise copy to `[t1-dt, t1]` with
`t1 = time + ttime - 5`, and stores `10*log10(srms*srms/nrms/nrms)` in
`meta.snr`. -/
noncomputable def calcSnr (prim : Primitives) (dt fmin fmax : ℝ)
    (s : RFDataS) : Except PyError RFDataS :=
  if s.meta.accept = false then .ok s
  else
    match s.err with
    | none => .error .attributeError
    | some e =>
      if e then .ok s
      else
        match s.dataS with
        | none => .error (.exceptionMsg "ZNE data are not available - aborting")
        | some st =>
          if st.isEmpty then
            .error (.exceptionMsg "ZNE data are not available - aborting")
          else
            match s.meta.ttime with
            | none => .error .typeError
            | some tt =>
              let t1 := s.meta.time + tt - 5
              match s.meta.align.data with
              | [] => .error .indexError
              | comp :: _ =>
                match select comp st with
                | none => .error .indexError
                | some tr0 =>
                  let filtered := prim.bandpass fmin fmax 2 true tr0.dat
                  let trSig := prim.trim t1 (t1 + dt) { tr0 with dat := filtered }
                  let trNze := prim.trim (t1 - dt) t1 { tr0 with dat := filtered }
                  let srms := rms trSig.dat
                  let nrms := rms trNze.dat
                  .ok { s with
                    meta := { s.meta with
                      snr := some (10 * Real.logb 10 (srms * srms / nrms / nrms)) } }

/-- Python `int()` applied to a float: truncation toward zero. -/
noncomputable def intPy (x : ℝ) : ℤ :=
  if 0 ≤ x then ⌊x⌋ else ⌈x⌉

/-- `np.hanning(m)`: the Hann window of `m` points (`[]` for 0, `[1]` for 1). -/
noncomputable def hanning : ℕ → List ℝ
  | 0 => []
  | 1 => [1]
  | m => (List.range m).map
      (fun k : ℕ => 1 / 2 - 1 / 2 * Real.cos (2 * Real.pi * k / (m - 1)))

/-- The local `_taper(nt, ns)` of `RFData.deconvolve` (classes.py lines
624-629): a length-`nt` array of ones whose first `ns` entries are the rising
half of `np.hanning(2*ns)` and whose last `ns` entries are the falling half.
The two numpy slice assignments require `ns <= nt` (otherwise the assigned
array does not fit the slice and numpy raises `ValueError`); the closed form
below also covers the overlapping case `nt < 2*ns`, where the second
assignment overwrites the tail of the first. -/
noncomputable def taperNP (nt ns : ℕ) : Except PyError (List ℝ) :=
  if ns ≤ nt then
    .ok ((((hanning (2 * ns)).take ns ++ List.replicate (nt - 2 * ns) 1).take
          (nt - ns)) ++ (hanning (2 * ns)).drop ns)
  else .error .valueError

/-- numpy in-place elementwise multiplication `a *= b` of one-dimensional
arrays: the result keeps `a`'s shape, so the right operand must either match
`a`'s length or have length one, in which case its single entry broadcasts
across `a`; any other shape pair is not broadcastable into `a` and numpy
raises `ValueError` (in particular a longer `b` cannot be stored into a
shorter `a`, even a length-one `a`). -/
def npInPlaceMul (a b : List ℝ) : Except PyError (List ℝ) :=
  if a.length = b.length then .ok (List.zipWith (fun x y => x * y) a b)
  else if b.length = 1 then .ok (a.map (fun x => x * b.headD 0))
  else .error .valueError

/-- The placeholder stream `Stream(traces=[Trace(), Trace(), Trace()])` that
the source stores in `self.rf` on a sample-count mismatch (classes.py line
685): three default obspy traces, each with an empty channel code and no
samples. -/
def placeholderRF : List TraceR :=
  [ { channel := "", delta := 1, dat := [] },
    { channel := "", delta := 1, dat := [] },
    { channel := "", delta := 1, dat := [] } ]

/-- `np.amax` of a real array (maximum sample; junk value 0 for the empty
array, on which numpy errors). -/
noncomputable def amaxNP : List ℝ → ℝ
  | [] => 0
  | x :: xs => xs.foldl max x

/-- The auto- and cross-spectra of `RFData.deconvolve` (classes.py lines
702-712), elementwise over the six Fourier-transformed tapered traces, as the
quadruple (Sl, Sq, St, Ss + Sdenom) with
`Sdenom = 0.25*(Snl+Snq) + 0.5*abs(Snlq)`. -/
noncomputable def crossSpectra (Fl Fq Ft Fs Fnl Fnq : List ℂ) :
    List ℂ × List ℂ × List ℂ × List ℂ :=
  let Sl := List.zipWith (fun a b => a * (starRingEnd ℂ) b) Fl Fs
  let Sq := List.zipWith (fun a b => a * (starRingEnd ℂ) b) Fq Fs
  let St := List.zipWith (fun a b => a * (starRingEnd ℂ) b) Ft Fs
  let Ss := List.zipWith (fun a b => a * (starRingEnd ℂ) b) Fs Fs
  let Snl := List.zipWith (fun a b => a * (starRingEnd ℂ) b) Fnl Fnl
  let Snq := List.zipWith (fun a b => a * (starRingEnd ℂ) b) Fnq Fnq
  let Snlq := List.zipWith (fun a b => a * (starRingEnd ℂ) b) Fnq Fnl
  let Sdenom := List.zipWith
    (fun d a => d + (1 / 2 : ℂ) * (Complex.abs a : ℝ))
    (List.zipWith (fun x y => (1 / 4 : ℂ) * (x + y)) Snl Snq) Snlq
  (Sl, Sq, St, List.zipWith (fun x y => x + y) Ss Sdenom)

/-- The spectral division and inverse transform of `RFData.deconvolve`
(classes.py lines 714-722) as written in the source:
`rfL = np.real(np.fft.ifft(Sl/(Ss+Sdenom)))`, and for Q and T the inverse
transform is divided by `np.amax(rfL)` before the real part is taken. -/
noncomputable def spectralDivision (ifft : List ℂ → List ℂ)
    (Fl Fq Ft Fs Fnl Fnq : List ℂ) : List ℝ × List ℝ × List ℝ :=
  let cs := crossSpectra Fl Fq Ft Fs Fnl Fnq
  let rfL := (ifft (List.zipWith (fun a b => a / b) cs.1 cs.2.2.2)).map
    Complex.re
  let mx := amaxNP rfL
  (rfL,
    (ifft (List.zipWith (fun a b => a / b) cs.2.1 cs.2.2.2)).map
      (fun z => (z / (mx : ℂ)).re),
    (ifft (List.zipWith (fun a b => a / b) cs.2.2.1 cs.2.2.2)).map
      (fun z => (z / (mx : ℂ)).re))

/-- The same stage as the spec words it (its section 4.4, step 9):
`rfL = Re(IFFT(Sl/(Ss+Sdenom)))` with `rfL` itself not normalized, while
`rfQ = Re(IFFT(Sq/(Ss+Sdenom))) / max(rfL)` and
`rfT = Re(IFFT(St/(Ss+Sdenom))) / max(rfL)` divide the real-valued receiver
functions by the maximum sample of `rfL`. -/
noncomputable def spectralDivisionSpec (ifft : List ℂ → List ℂ)
    (Fl Fq Ft Fs Fnl Fnq : List ℂ) : List ℝ × List ℝ × List ℝ :=
  let cs := crossSpectra Fl Fq Ft Fs Fnl Fnq
  let rfL := (ifft (List.zipWith (fun a b => a / b) cs.1 cs.2.2.2)).map
    Complex.re
  let mx := amaxNP rfL
  (rfL,
    ((ifft (List.zipWith (fun a b => a / b) cs.2.1 cs.2.2.2)).map
      Complex.re).map (fun x => x / mx),
    ((ifft (List.zipWith (fun a b => a / b) cs.2.2.1 cs.2.2.2)).map
      Complex.re).map (fun x => x / mx))

/-- Assembly of the output stream of `RFData.deconvolve` (classes.py lines
724-729): the three receiver functions keep the stats of the tapered input
traces and their channels are relabelled `'RF' + align[i]`, preserving the
alignment order. -/
noncomputable def mkRFStream (c0 c1 c2 : Char) (tL tQ tT : TraceR)
    (dL dQ dT : List ℝ) : List TraceR :=
  [ { tL with channel := String.mk ['R', 'F', c0], dat := dL },
    { tQ with channel := String.mk ['R', 'F', c1], dat := dQ },
    { tT with channel := String.mk ['R', 'F', c2], dat := dT } ]

/-- The body of `RFData.deconvolve` from the point where the six trimmed
traces exist (classes.py lines 668-729): taper the source trace with the
pulse window, taper the five remaining traces with the 2-second ramps, then
Fourier transform, spectral division and stream assembly.  On a sample-count
mismatch the source stores three empty placeholder traces in `self.rf` and
falls through (there is no `return`); what happens next depends on numpy
broadcasting: when the taper window has more than one sample, the in-place
multiply on the mismatched trace raises and the exception escapes, while with
a one-sample window every multiply broadcasts, execution reaches the end, and
the final assignment overwrites `self.rf` with the computed stream — in
neither case does a successful return carry the placeholder. -/
noncomputable def deconvolveCore (prim : Primitives) (twin : ℝ)
    (c0 c1 c2 : Char) (trL trQ trT trS trNl trNq : TraceR) :
    Except PyError (List TraceR) :=
  let kZ := intPy (twin / trS.delta)
  let nsSZ := intPy (2 / trS.delta)
  if kZ < 0 ∨ nsSZ < 0 then .error .valueError
  else
    match taperNP kZ.toNat nsSZ.toNat with
    | .error e => .error e
    | .ok tapS =>
      if kZ.toNat ≤ trS.dat.length then
        let windowS := tapS ++ List.replicate (trS.dat.length - kZ.toNat) 0
        let trSdat := List.zipWith (fun x y => x * y) trS.dat windowS
        let nsLZ := intPy (2 / trL.delta)
        if nsLZ < 0 then .error .valueError
        else
          match taperNP trL.dat.length nsLZ.toNat with
          | .error e => .error e
          | .ok window =>
            match npInPlaceMul trL.dat window with
            | .error e => .error e
            | .ok trLdat =>
              match npInPlaceMul trQ.dat window with
              | .error e => .error e
              | .ok trQdat =>
                match npInPlaceMul trT.dat window with
                | .error e => .error e
                | .ok trTdat =>
                  match npInPlaceMul trNl.dat window with
                  | .error e => .error e
                  | .ok trNldat =>
                    match npInPlaceMul trNq.dat window with
                    | .error e => .error e
                    | .ok trNqdat =>
                      let sd := spectralDivision prim.ifft
                        (prim.fft trLdat) (prim.fft trQdat) (prim.fft trTdat)
                        (prim.fft trSdat) (prim.fft trNldat) (prim.fft trNqdat)
                      .ok (mkRFStream c0 c1 c2 trL trQ trT sd.1 sd.2.1 sd.2.2)
      else .error .valueError

/-- `RFData.deconvolve` (classes.py lines 611-729): the guards, the
auto-rotate and auto-SNR prerequisites, the channel selection by the current
alignment tag, the trims to the analysis and noise windows, and the core. -/
noncomputable def deconvolve (prim : Primitives) (twin : ℝ)
    (align : Option String) (s : RFDataS) : Except PyError RFDataS :=
  if s.meta.accept = false then .ok s
  else
    match s.err with
    | none => .error .attributeError
    | some e =>
      if e then .ok s
      else
        match (if s.meta.rotated = false then rotate prim none none align s
               else .ok s) with
        | .error e2 => .error e2
        | .ok s1 =>
          match (if s1.meta.snr = none then calcSnr prim 30 (1 / 10) 1 s1
                 else .ok s1) with
          | .error e2 => .error e2
          | .ok s2 =>
            match s2.meta.align.data with
            | c0 :: c1 :: c2 :: _ =>
              match s2.dataS with
              | none => .error .attributeError
              | some st =>
                match s2.meta.ttime with
                | none => .error .typeError
                | some tt =>
                  match select c0 st, select c1 st, select c2 st with
                  | some l0, some q0, some t0 =>
                    let tA := s2.meta.time + tt
                    let trL := prim.trim (tA - 5) (tA + 110) l0
                    let trQ := prim.trim (tA - 5) (tA + 110) q0
                    let trT := prim.trim (tA - 5) (tA + 110) t0
                    let trS := prim.trim (tA - 5) (tA + 110) l0
                    let trNl := prim.trim (tA - 120) (tA - 5) l0
                    let trNq := prim.trim (tA - 120) (tA - 5) q0
                    match deconvolveCore prim twin c0 c1 c2
                      trL trQ trT trS trNl trNq with
                    | .error e2 => .error e2
                    | .ok rfStream => .ok { s2 with rf := some rfStream }
                  | _, _, _ => .error .indexError
            | _ => .error .indexError

/-- `RFData.to_stream` (classes.py lines 731-800): the guards, the
missing-receiver-function exception, the auto-SNR prerequisite, and the
attachment of snr/slow/baz/is_rf stats to every receiver-function trace; the
mutated stream is returned (the traces are mutated in place, so `self.rf`
reflects the stats too). -/
noncomputable def toStream (prim : Primitives) (s : RFDataS) :
    Except PyError (RFDataS × Option (List TraceR)) :=
  if s.meta.accept = false then .ok (s, none)
  else
    match s.err with
    | none => .error .attributeError
    | some e =>
      if e then .ok (s, none)
      else
        match s.rf with
        | none =>
            .error (.exceptionMsg "Warning: Receiver functions are not available")
        | some rfst =>
          match (if s.meta.snr = none then calcSnr prim 30 (1 / 10) 1 s
                 else .ok s) with
          | .error e2 => .error e2
          | .ok s2 =>
            let out := rfst.map (fun tr =>
              { tr with
                stats_snr := s2.meta.snr,
                stats_slow := s2.meta.slow,
                stats_baz := some s2.meta.baz,
                is_rf := true })
            .ok ({ s2 with rf := some out }, some out)

/-- Trivial concrete instances of the external primitives, used by witnesses. -/
def primFix : Primitives :=
  { bandpass := fun _ _ _ _ l => l,
    trim := fun _ _ t => t,
    rotZNELQT := fun _ _ st => st,
    fft := fun _ => [],
    ifft := fun l => l }

/-- A concrete metadata record of an accepted event, used by witnesses. -/
noncomputable def sampleMeta : MetaS :=
  { time := 0, dep := 35, lon := 0, lat := 0, mag := 6, epi_dist := 9000,
    az := 90, baz := 270, gac := 81, ttime := some 480, ph := some "P",
    slow := some 4, inc := some 10, vp := 6, vs := 3, align := "ZRT",
    rotated := false, accept := true, snr := none }

/-- A concrete rejected record (failed travel-time lookup), used by witnesses. -/
noncomputable def sampleRejected : RFDataS :=
  { meta := { sampleMeta with
      accept := false, ttime := none, ph := none, slow := none, inc := none } }

/-- A concrete accepted record whose `err` attribute was never created
(waveforms attached by `add_NEZ`), used by witnesses. -/
noncomputable def sampleNoErr : RFDataS :=
  { meta := sampleMeta, err := none }

/-- Concrete raw traces (labels Z, N, E; empty sample arrays), used by
witnesses. -/
noncomputable def tzS : TraceR := { channel := "HHZ", delta := 1, dat := [] }

noncomputable def tnS : TraceR := { channel := "HHN", delta := 1, dat := [] }

noncomputable def teS : TraceR := { channel := "HHE", delta := 1, dat := [] }

/-- A concrete raw ZNE stream, used by witnesses. -/
noncomputable def stZNE : List TraceR := [tzS, tnS, teS]

/-- A concrete accepted record with a falsy error indicator and the raw ZNE
stream attached, used by witnesses. -/
noncomputable def sWithData : RFDataS :=
  { meta := sampleMeta, err := some false, dataS := some stZNE }

/-- The stream `stZNE` after the NE->RT rotation, used by witnesses. -/
noncomputable def stRT : List TraceR :=
  [tzS, { tnS with channel := "HHR", dat := [] },
    { teS with channel := "HHT", dat := [] }]

/-- A concrete trimmed trace with a single sample, giving a sample-count
mismatch against the empty traces; used by witnesses. -/
noncomputable def trQw : TraceR := { channel := "HHR", delta := 1, dat := [0] }

/-- C4: after `add_event` returns, the arrival fields are resolved atomically:
`accept = true` exactly when each of travel time, phase name, slowness and
incidence angle is defined, so no reachable state has some of the four defined
and others not. -/
theorem C4_add_event_atomic (time dep lon lat mag epi_dist az baz gac : ℝ)
    (arrivals : List Arrival) :
    (addEventMeta time dep lon lat mag epi_dist az baz gac arrivals).ttime.isSome
        = (addEventMeta time dep lon lat mag epi_dist az baz gac arrivals).accept ∧
    (addEventMeta time dep lon lat mag epi_dist az baz gac arrivals).ph.isSome
        = (addEventMeta time dep lon lat mag epi_dist az baz gac arrivals).accept ∧
    (addEventMeta time dep lon lat mag epi_dist az baz gac arrivals).slow.isSome
        = (addEventMeta time dep lon lat mag epi_dist az baz gac arrivals).accept ∧
    (addEventMeta time dep lon lat mag epi_dist az baz gac arrivals).inc.isSome
        = (addEventMeta time dep lon lat mag epi_dist az baz gac arrivals).accept := by
  cases arrivals with
  | nil => simp [addEventMeta, metaFromArrivals, resolveArrival]
  | cons a l =>
    cases l <;> simp [addEventMeta, metaFromArrivals, resolveArrival]

/-- C6: evaluation of the embedded `Meta` construction on a travel-time result
with two candidate arrivals.  The source intends to log a warning and keep the
first arrival, but `print("arrival has many entries:"+arrivals)` concatenates
a `str` with a list, raising `TypeError` inside the `try`; the bare `except`
then nulls all four arrival fields, so the event is rejected instead of
accepted. -/
theorem C6_multi_arrival_rejected :
    (addEventMeta 0 35 145 (-2) 6 9000 27 264 88
      [⟨480, "P", 444, 20⟩, ⟨520, "PP", 555, 25⟩]).accept = false ∧
    (addEventMeta 0 35 145 (-2) 6 9000 27 264 88
      [⟨480, "P", 444, 20⟩, ⟨520, "PP", 555, 25⟩]).ttime = none ∧
    (addEventMeta 0 35 145 (-2) 6 9000 27 264 88
      [⟨480, "P", 444, 20⟩, ⟨520, "PP", 555, 25⟩]).ph = none ∧
    (addEventMeta 0 35 145 (-2) 6 9000 27 264 88
      [⟨480, "P", 444, 20⟩, ⟨520, "PP", 555, 25⟩]).slow = none ∧
    (addEventMeta 0 35 145 (-2) 6 9000 27 264 88
      [⟨480, "P", 444, 20⟩, ⟨520, "PP", 555, 25⟩]).inc = none := by
  simp [addEventMeta, metaFromArrivals, resolveArrival]

/-- C10: in the PVH branch of `rotate`, supplying only one of the vp/vs
overrides (or a falsy value such as 0 for either) makes both velocities fall
back to the stored defaults: a single supplied override is discarded and never
combined with a stored default. -/
theorem C10_falsy_velocity_fallback (vp vs : Option ℝ) (m : MetaS)
    (h : truthyR vp = false ∨ truthyR vs = false) :
    pvhVelocities vp vs m = (m.vp, m.vs) := by
  unfold pvhVelocities
  rw [if_pos h]

theorem C10_falsy_velocity_fallback_witness :
    (truthyR (some 0) = false ∨ truthyR (some 5) = false) ∧
    pvhVelocities (some 0) (some 5) sampleMeta = (sampleMeta.vp, sampleMeta.vs) :=
  ⟨Or.inl (by simp [truthyR]),
    C10_falsy_velocity_fallback (some 0) (some 5) sampleMeta
      (Or.inl (by simp [truthyR]))⟩

/-- C3: for a record whose travel-time lookup yielded no arrival
(`accept = false`), each of rotate, calc_snr, deconvolve and to_stream returns
immediately as a no-op: no exception is raised and the record — waveform data
and receiver-function state included — is returned unchanged. -/
theorem C3_rejected_event_noop (prim : Primitives) (vp vs : Option ℝ)
    (al : Option String) (dt fmin fmax twin : ℝ) (s : RFDataS)
    (h : s.meta.accept = false) :
    rotate prim vp vs al s = .ok s ∧
    calcSnr prim dt fmin fmax s = .ok s ∧
    deconvolve prim twin al s = .ok s ∧
    toStream prim s = .ok (s, none) := by
  refine ⟨?_, ?_, ?_, ?_⟩ <;> simp [rotate, calcSnr, deconvolve, toStream, h]

theorem C3_rejected_event_noop_witness :
    sampleRejected.meta.accept = false ∧
    (rotate primFix none none none sampleRejected = .ok sampleRejected ∧
     calcSnr primFix 30 (1 / 10) 1 sampleRejected = .ok sampleRejected ∧
     deconvolve primFix 30 none sampleRejected = .ok sampleRejected ∧
     toStream primFix sampleRejected = .ok (sampleRejected, none)) :=
  ⟨rfl, C3_rejected_event_noop primFix none none none 30 (1 / 10) 1 30
    sampleRejected rfl⟩

/-- C9: for an accepted record whose waveforms were attached via `add_NEZ`
(which never creates the `err` attribute), each of rotate, calc_snr,
deconvolve and to_stream fails with an attribute-access error while evaluating
`self.err`, before any domain logic runs; `add_NEZ` leaves `err` untouched and
only `download_NEZ` defines it. -/
theorem C9_missing_err_attribute (prim : Primitives) (vp vs : Option ℝ)
    (al : Option String) (dt fmin fmax twin : ℝ) (s : RFDataS)
    (h1 : s.meta.accept = true) (h2 : s.err = none) :
    rotate prim vp vs al s = .error .attributeError ∧
    calcSnr prim dt fmin fmax s = .error .attributeError ∧
    deconvolve prim twin al s = .error .attributeError ∧
    toStream prim s = .error .attributeError ∧
    (∀ st s', addNEZ st s = .ok s' → s'.err = none) ∧
    (∀ e tz tn te, downloadNEZ e tz tn te s =
        .ok { s with err := some e, dataS := some [tz, tn, te] }) := by
  refine ⟨?_, ?_, ?_, ?_, ?_, ?_⟩
  · simp [rotate, h1, h2]
  · simp [calcSnr, h1, h2]
  · simp [deconvolve, h1, h2]
  · simp [toStream, h1, h2]
  · intro st s' hok
    rcases hE : select 'E' st with _ | tE <;>
      rcases hN : select 'N' st with _ | tN <;>
        rcases hZ : select 'Z' st with _ | tZ <;>
          (simp [addNEZ, h1, hE, hN, hZ] at hok; try simp [← hok, h2])
  · intro e tz tn te
    simp [downloadNEZ, h1]

/-- Real part and division by a real commute: used to reconcile the source's
`np.real(np.fft.ifft(...)/np.amax(rfL))` with the spec's
`Re(IFFT(...))/max(rfL)`. -/
theorem map_re_div_ofReal (l : List ℂ) (r : ℝ) :
    l.map (fun z => (z / (r : ℂ)).re) = (l.map Complex.re).map (fun x => x / r) := by
  rw [List.map_map]
  congr 1
  funext z
  exact Complex.div_ofReal_re z r

/-- C1: in `deconvolve`, after Fourier-transforming the six tapered traces,
the regularizing denominator is `Sdenom = 0.25*(Snl+Snq) + 0.5*|Snlq|`, and
the outputs are `rfL = Re(IFFT(Sl/(Ss+Sdenom)))` with `rfL` itself not
normalized, while `rfQ` and `rfT` are each the real part of the inverse
transform divided by the maximum sample of `rfL` — the source's division
before `np.real` agrees with the spec's division after it — and the three
output channels get an `RF` prefix preserving the alignment order. -/
theorem C1_spectral_division_matches_spec (ifft : List ℂ → List ℂ)
    (Fl Fq Ft Fs Fnl Fnq : List ℂ) (c0 c1 c2 : Char) (tL tQ tT : TraceR)
    (dL dQ dT : List ℝ) :
    spectralDivision ifft Fl Fq Ft Fs Fnl Fnq
      = spectralDivisionSpec ifft Fl Fq Ft Fs Fnl Fnq ∧
    (mkRFStream c0 c1 c2 tL tQ tT dL dQ dT).map TraceR.channel
      = [String.mk ['R', 'F', c0], String.mk ['R', 'F', c1],
         String.mk ['R', 'F', c2]] := by
  constructor
  · simp only [spectralDivision, spectralDivisionSpec, map_re_div_ofReal]
  · rfl

/-- C7: for an accepted record with a falsy error indicator and data present,
`calc_snr` selects the first channel of the current alignment tag, band-pass
filters two copies between 0.1 and 1.0 Hz with 2 corners zero-phase, trims the
signal copy to the `dt`-second window starting 5 seconds before the predicted
arrival and the noise copy to the equal-length window ending 5 seconds before
it, and stores `snr = 10*log10(signal_rms^2 / noise_rms^2)`. -/
theorem C7_calc_snr_windows_and_formula (prim : Primitives) (dt : ℝ)
    (s : RFDataS) (st : List TraceR) (tt : ℝ) (c0 : Char) (rest : List Char)
    (tr0 : TraceR)
    (hacc : s.meta.accept = true) (herr : s.err = some false)
    (hdat : s.dataS = some st) (hne : st.isEmpty = false)
    (htt : s.meta.ttime = some tt) (hal : s.meta.align.data = c0 :: rest)
    (hsel : select c0 st = some tr0) :
    calcSnr prim dt (1 / 10) 1 s = .ok { s with
      meta := { s.meta with
        snr := some (10 * Real.logb 10
          ((rms (prim.trim (s.meta.time + tt - 5) (s.meta.time + tt - 5 + dt)
              { tr0 with dat := prim.bandpass (1 / 10) 1 2 true tr0.dat }).dat) ^ 2
            / (rms (prim.trim (s.meta.time + tt - 5 - dt) (s.meta.time + tt - 5)
              { tr0 with dat := prim.bandpass (1 / 10) 1 2 true tr0.dat }).dat) ^ 2)) } } := by
  have hsq : ∀ a b : ℝ, a * a / b / b = a ^ 2 / b ^ 2 := by
    intro a b
    ring
  simp only [calcSnr, hacc, herr, hdat, hne, htt, hal, hsel, hsq]
  simp

theorem C7_calc_snr_windows_and_formula_witness :
    (let s : RFDataS :=
      { meta := sampleMeta, err := some false,
        dataS := some [{ channel := "HHZ", delta := 1, dat := [1, 2] }] }
     s.meta.accept = true ∧ s.err = some false ∧
      s.dataS = some [{ channel := "HHZ", delta := 1, dat := [1, 2] }] ∧
      ([({ channel := "HHZ", delta := 1, dat := [1, 2] } : TraceR)] :
        List TraceR).isEmpty = false ∧
      s.meta.ttime = some 480 ∧ s.meta.align.data = 'Z' :: ['R', 'T'] ∧
      select 'Z' [{ channel := "HHZ", delta := 1, dat := [1, 2] }]
        = some { channel := "HHZ", delta := 1, dat := [1, 2] } ∧
      calcSnr primFix 30 (1 / 10) 1 s = .ok { s with
        meta := { s.meta with
          snr := some (10 * Real.logb 10
            ((rms (primFix.trim (s.meta.time + 480 - 5) (s.meta.time + 480 - 5 + 30)
                { ({ channel := "HHZ", delta := 1, dat := [1, 2] } : TraceR) with
                  dat := primFix.bandpass (1 / 10) 1 2 true [1, 2] }).dat) ^ 2
              / (rms (primFix.trim (s.meta.time + 480 - 5 - 30) (s.meta.time + 480 - 5)
                { ({ channel := "HHZ", delta := 1, dat := [1, 2] } : TraceR) with
                  dat := primFix.bandpass (1 / 10) 1 2 true [1, 2] }).dat) ^ 2)) } }) := by
  refine ⟨rfl, rfl, rfl, rfl, rfl, rfl, rfl, ?_⟩
  exact C7_calc_snr_windows_and_formula primFix 30 _ _ 480 'Z' ['R', 'T'] _
    rfl rfl rfl rfl rfl rfl rfl

/-- The PVH transform written with the spec's formulas: the source's
`1./vp/vp - slow*slow` under the square roots and its `vs*vs` matrix entries
equal the spec's `1/vp^2 - p^2` and `vs^2` forms. -/
theorem rotatePVH_spec_form (p vp1 vs1 : ℝ) (tz tr2 th2 : TraceR) :
    rotatePVH p vp1 vs1 tz tr2 th2 =
      [ { tz with
          channel := relabel 'P' tz.channel,
          dat := List.zipWith (fun r t =>
            -(p * vs1 ^ 2 / vp1) * r
              + -(1 - 2 * vs1 ^ 2 * p ^ 2)
                  / (2 * vp1 * Real.sqrt (1 / vp1 ^ 2 - p ^ 2)) * t)
            tr2.dat th2.dat },
        { tr2 with
          channel := relabel 'V' tr2.channel,
          dat := List.zipWith (fun r t =>
            -((1 - 2 * vs1 ^ 2 * p ^ 2)
                / (2 * vs1 * Real.sqrt (1 / vs1 ^ 2 - p ^ 2))) * r
              + p * vs1 * t) tr2.dat th2.dat },
        { th2 with
          channel := relabel 'H' th2.channel,
          dat := th2.dat.map (fun x => -x / 2) } ] := by
  have hvp : (1 / vp1 / vp1 - p * p) = (1 / vp1 ^ 2 - p ^ 2) := by ring
  have hvs : (1 / vs1 / vs1 - p * p) = (1 / vs1 ^ 2 - p ^ 2) := by ring
  have hfP : (fun r t : ℝ =>
      -(p * vs1 * vs1 / vp1) * r
        + -(1 - 2 * vs1 * vs1 * p * p)
            / (2 * vp1 * Real.sqrt (1 / vp1 / vp1 - p * p)) * t)
      = (fun r t : ℝ =>
      -(p * vs1 ^ 2 / vp1) * r
        + -(1 - 2 * vs1 ^ 2 * p ^ 2)
            / (2 * vp1 * Real.sqrt (1 / vp1 ^ 2 - p ^ 2)) * t) := by
    funext r t
    rw [hvp]
    ring
  have hfV : (fun r t : ℝ =>
      -((1 - 2 * vs1 * vs1 * p * p)
          / (2 * vs1 * Real.sqrt (1 / vs1 / vs1 - p * p))) * r
        + p * vs1 * t)
      = (fun r t : ℝ =>
      -((1 - 2 * vs1 ^ 2 * p ^ 2)
          / (2 * vs1 * Real.sqrt (1 / vs1 ^ 2 - p ^ 2))) * r
        + p * vs1 * t) := by
    funext r t
    rw [hvs]
    ring
  simp only [rotatePVH, hfP, hfV]

/-- C2: for an accepted record with a falsy error indicator, not yet rotated
and with data present, `rotate` with align `PVH` computes
`qp = sqrt(1/vp^2 - p^2)` and `qs = sqrt(1/vs^2 - p^2)` with `p` the stored
slowness, builds the matrix `[[-m11, m12], [-m21, m22]]` with
`m11 = p*vs^2/vp`, `m12 = -(1-2*vs^2*p^2)/(2*vp*qp)`,
`m21 = (1-2*vs^2*p^2)/(2*vs*qs)`, `m22 = p*vs`, applies it sample-by-sample to
the stacked (R, T) vector obtained from the preliminary NE->RT rotation to
produce the P and V components, and sets the H component to `-T/2`. -/
theorem C2_pvh_free_surface_transform (prim : Primitives) (vpo vso : Option ℝ)
    (s : RFDataS) (p vp1 vs1 : ℝ) (st st2 : List TraceR) (tz tr2 th2 : TraceR)
    (hacc : s.meta.accept = true) (herr : s.err = some false)
    (hrot : s.meta.rotated = false) (hslow : s.meta.slow = some p)
    (hdat : s.dataS = some st) (hne : st.isEmpty = false)
    (hrt : rotNERT s.meta.baz st = .ok st2)
    (hz : select 'Z' st2 = some tz) (hr : select 'R' st2 = some tr2)
    (ht : select 'T' st2 = some th2)
    (hvel : pvhVelocities vpo vso s.meta = (vp1, vs1)) :
    rotate prim vpo vso (some "PVH") s = .ok { s with
      dataS := some
        [ { tz with
            channel := relabel 'P' tz.channel,
            dat := List.zipWith (fun r t =>
              -(p * vs1 ^ 2 / vp1) * r
                + -(1 - 2 * vs1 ^ 2 * p ^ 2)
                    / (2 * vp1 * Real.sqrt (1 / vp1 ^ 2 - p ^ 2)) * t)
              tr2.dat th2.dat },
          { tr2 with
            channel := relabel 'V' tr2.channel,
            dat := List.zipWith (fun r t =>
              -((1 - 2 * vs1 ^ 2 * p ^ 2)
                  / (2 * vs1 * Real.sqrt (1 / vs1 ^ 2 - p ^ 2))) * r
                + p * vs1 * t) tr2.dat th2.dat },
          { th2 with
            channel := relabel 'H' th2.channel,
            dat := th2.dat.map (fun x => -x / 2) } ],
      meta := { s.meta with align := "PVH", rotated := true } } := by
  rw [← rotatePVH_spec_form]
  have he : ("PVH" : String).isEmpty = false := rfl
  have h1 : ¬ (("PVH" : String) = "ZRT") := by decide
  have h2 : ¬ (("PVH" : String) = "LQT") := by decide
  simp [rotate, hacc, herr, hrot, hslow, hdat, hne, hrt, hz, hr, ht, hvel,
    truthyS, he, h1, h2]

theorem C2_pvh_free_surface_transform_witness :
    sWithData.meta.accept = true ∧ sWithData.err = some false ∧
    sWithData.meta.rotated = false ∧ sWithData.meta.slow = some 4 ∧
    sWithData.dataS = some stZNE ∧ stZNE.isEmpty = false ∧
    rotNERT sWithData.meta.baz stZNE = .ok stRT ∧
    select 'Z' stRT = some tzS ∧
    select 'R' stRT = some { tnS with channel := "HHR", dat := [] } ∧
    select 'T' stRT = some { teS with channel := "HHT", dat := [] } ∧
    pvhVelocities none none sWithData.meta = (6, 3) ∧
    rotate primFix none none (some "PVH") sWithData = .ok { sWithData with
      dataS := some
        [ { tzS with channel := relabel 'P' "HHZ", dat := [] },
          { tnS with channel := relabel 'V' "HHR", dat := [] },
          { teS with channel := relabel 'H' "HHT", dat := [] } ],
      meta := { sampleMeta with align := "PVH", rotated := true } } :=
  ⟨rfl, rfl, rfl, rfl, rfl, rfl, rfl, rfl, rfl, rfl, rfl,
    C2_pvh_free_surface_transform primFix none none sWithData 4 6 3 stZNE stRT
      tzS { tnS with channel := "HHR", dat := [] }
      { teS with channel := "HHT", dat := [] }
      rfl rfl rfl rfl rfl rfl rfl rfl rfl rfl rfl⟩

/-- Pointwise energy conservation of the NE->RT rotation on equal-length
sample lists, read off at any index (out-of-range indices read the default 0
on both sides). -/
theorem zrt_energy_getD (θ : ℝ) :
    ∀ (a b : List ℝ), a.length = b.length → ∀ i : ℕ,
      ((List.zipWith (zrtR θ) a b).getD i 0) ^ 2
          + ((List.zipWith (zrtT θ) a b).getD i 0) ^ 2
        = (a.getD i 0) ^ 2 + (b.getD i 0) ^ 2 := by
  intro a
  induction a with
  | nil =>
    intro b hb i
    cases b with
    | nil => simp
    | cons y ys => simp at hb
  | cons x xs ih =>
    intro b hb i
    cases b with
    | nil => simp at hb
    | cons y ys =>
      cases i with
      | zero =>
        simp only [List.zipWith_cons_cons, List.getD_cons_zero, zrtR, zrtT]
        linear_combination (x ^ 2 + y ^ 2) * Real.sin_sq_add_cos_sq θ
      | succ j =>
        simp only [List.zipWith_cons_cons, List.getD_cons_succ]
        exact ih ys (by simpa using hb) j

/-- C8: for an accepted record with a falsy error indicator, not yet rotated
and with data present, `rotate` with align `ZRT` replaces the N and E traces
by the radial and transverse data and leaves every other trace — the vertical
channel — unchanged, and the rotation preserves horizontal-plane energy: at
every sample index, `N^2 + E^2 = R^2 + T^2` (exactly, in the real-number
model). -/
theorem C8_zrt_energy_preserving (prim : Primitives) (vp vs : Option ℝ)
    (s : RFDataS) (st : List TraceR) (tn te : TraceR)
    (hacc : s.meta.accept = true) (herr : s.err = some false)
    (hrot : s.meta.rotated = false) (hdat : s.dataS = some st)
    (hne : st.isEmpty = false)
    (hN : select 'N' st = some tn) (hE : select 'E' st = some te)
    (hlen : tn.dat.length = te.dat.length) :
    rotate prim vp vs (some "ZRT") s = .ok { s with
      dataS := some (st.map (zrtMapTrace
        (List.zipWith (zrtR (s.meta.baz * Real.pi / 180)) tn.dat te.dat)
        (List.zipWith (zrtT (s.meta.baz * Real.pi / 180)) tn.dat te.dat))),
      meta := { s.meta with align := "ZRT", rotated := true } } ∧
    (∀ i : ℕ,
      ((List.zipWith (zrtR (s.meta.baz * Real.pi / 180)) tn.dat te.dat).getD i 0) ^ 2
          + ((List.zipWith (zrtT (s.meta.baz * Real.pi / 180)) tn.dat te.dat).getD i 0) ^ 2
        = (tn.dat.getD i 0) ^ 2 + (te.dat.getD i 0) ^ 2) ∧
    (∀ (rdat tdat : List ℝ) (tr : TraceR),
      tr.channel.data.getLastD ' ' ≠ 'N' → tr.channel.data.getLastD ' ' ≠ 'E' →
        zrtMapTrace rdat tdat tr = tr) := by
  refine ⟨?_, ?_, ?_⟩
  · have he : ("ZRT" : String).isEmpty = false := rfl
    simp [rotate, rotNERT, hacc, herr, hrot, hdat, hne, hN, hE, truthyS, he]
  · intro i
    exact zrt_energy_getD (s.meta.baz * Real.pi / 180) tn.dat te.dat hlen i
  · intro rdat tdat tr h1 h2
    simp only [List.getLastD_eq_getLast?] at h1 h2
    simp [zrtMapTrace, h1, h2]

theorem C8_zrt_energy_preserving_witness :
    sWithData.meta.accept = true ∧ sWithData.err = some false ∧
    sWithData.meta.rotated = false ∧ sWithData.dataS = some stZNE ∧
    stZNE.isEmpty = false ∧ select 'N' stZNE = some tnS ∧
    select 'E' stZNE = some teS ∧ tnS.dat.length = teS.dat.length ∧
    (rotate primFix none none (some "ZRT") sWithData = .ok { sWithData with
        dataS := some stRT,
        meta := { sampleMeta with align := "ZRT", rotated := true } } ∧
      (∀ i : ℕ,
        ((List.zipWith (zrtR (sWithData.meta.baz * Real.pi / 180))
            tnS.dat teS.dat).getD i 0) ^ 2
            + ((List.zipWith (zrtT (sWithData.meta.baz * Real.pi / 180))
                tnS.dat teS.dat).getD i 0) ^ 2
          = (tnS.dat.getD i 0) ^ 2 + (teS.dat.getD i 0) ^ 2) ∧
      (∀ (rdat tdat : List ℝ) (tr : TraceR),
        tr.channel.data.getLastD ' ' ≠ 'N' → tr.channel.data.getLastD ' ' ≠ 'E' →
          zrtMapTrace rdat tdat tr = tr)) :=
  ⟨rfl, rfl, rfl, rfl, rfl, rfl, rfl, rfl,
    C8_zrt_energy_preserving primFix none none sWithData stZNE tnS teS
      rfl rfl rfl rfl rfl rfl rfl rfl⟩

/-- The Hann window has as many points as requested. -/
theorem hanning_length (m : ℕ) : (hanning m).length = m := by
  unfold hanning
  split
  · rfl
  · rfl
  · rw [List.length_map, List.length_range]

/-- A successful `_taper(nt, ns)` array has length `nt`. -/
theorem taperNP_length (nt ns : ℕ) (w : List ℝ) (h : taperNP nt ns = .ok w) :
    w.length = nt := by
  unfold taperNP at h
  split at h
  · rename_i hns
    simp only [Except.ok.injEq] at h
    subst h
    simp [hanning_length]
    omega
  · exact absurd h (by simp)

/-- A successful in-place multiply had equal lengths, or a broadcast
length-one right operand. -/
theorem npInPlaceMul_ok_or (a b c : List ℝ) (h : npInPlaceMul a b = .ok c) :
    a.length = b.length ∨ b.length = 1 := by
  unfold npInPlaceMul at h
  split at h
  · exact Or.inl (by assumption)
  · split at h
    · exact Or.inr (by assumption)
    · exact absurd h (by simp)

/-- A successful pass through the deconvolution core returns the RF-relabelled
stream (never the placeholder), and each of the five in-place taper
multiplications against the length-`len(trL)` window either matched that
length or broadcast a one-sample window. -/
theorem deconvolveCore_ok_shape (prim : Primitives) (twin : ℝ)
    (c0 c1 c2 : Char) (trL trQ trT trS trNl trNq : TraceR)
    (out : List TraceR)
    (h : deconvolveCore prim twin c0 c1 c2 trL trQ trT trS trNl trNq = .ok out) :
    out.map TraceR.channel
      = [String.mk ['R', 'F', c0], String.mk ['R', 'F', c1],
         String.mk ['R', 'F', c2]] ∧
    (trL.dat.length = trQ.dat.length ∨ trL.dat.length = 1) ∧
    (trL.dat.length = trT.dat.length ∨ trL.dat.length = 1) ∧
    (trL.dat.length = trNl.dat.length ∨ trL.dat.length = 1) ∧
    (trL.dat.length = trNq.dat.length ∨ trL.dat.length = 1) := by
  simp only [deconvolveCore] at h
  split at h
  · simp at h
  · split at h
    · simp at h
    · rename_i tapS htapS
      split at h
      · split at h
        · simp at h
        · split at h
          · simp at h
          · rename_i window hwin
            split at h
            · simp at h
            · rename_i trLdat hL
              split at h
              · simp at h
              · rename_i trQdat hQ
                split at h
                · simp at h
                · rename_i trTdat hT
                  split at h
                  · simp at h
                  · rename_i trNldat hNl
                    split at h
                    · simp at h
                    · rename_i trNqdat hNq
                      have hwL := taperNP_length _ _ _ hwin
                      have key : ∀ (x : List ℝ) (c : List ℝ),
                          npInPlaceMul x window = .ok c →
                          trL.dat.length = x.length ∨ trL.dat.length = 1 := by
                        intro x c hx
                        rcases npInPlaceMul_ok_or _ _ _ hx with h' | h'
                        · exact Or.inl ((h'.trans hwL).symm)
                        · exact Or.inr (by rw [← hwL]; exact h')
                      simp only [Except.ok.injEq] at h
                      subst h
                      exact ⟨rfl, key _ _ hQ, key _ _ hT, key _ _ hNl,
                        key _ _ hNq⟩
      · simp at h

/-- C5: when the tapered traces do not all share an identical sample count,
`deconvolve` does not silently produce the three-all-zero empty-placeholder
receiver-function result without signaling failure.  The source stores the
placeholder and falls through the check without a `return`; from there, any
successful (hence unsignaled) return carries the RF-relabelled computed
stream, which overwrites the placeholder — never the placeholder itself —
and when the taper window has more than one sample no broadcast is possible,
so the mismatched in-place multiply raises and the call signals failure. -/
theorem C5_no_silent_placeholder (prim : Primitives) (twin : ℝ)
    (c0 c1 c2 : Char) (trL trQ trT trS trNl trNq : TraceR)
    (hmis : ¬ (trL.dat.length = trQ.dat.length ∧
        trL.dat.length = trT.dat.length ∧
        trL.dat.length = trNl.dat.length ∧
        trL.dat.length = trNq.dat.length)) :
    (∀ out,
      deconvolveCore prim twin c0 c1 c2 trL trQ trT trS trNl trNq = .ok out →
        out.map TraceR.channel
            = [String.mk ['R', 'F', c0], String.mk ['R', 'F', c1],
               String.mk ['R', 'F', c2]] ∧
          out ≠ placeholderRF) ∧
    (trL.dat.length ≠ 1 →
      ∃ e, deconvolveCore prim twin c0 c1 c2 trL trQ trT trS trNl trNq
        = .error e) := by
  constructor
  · intro out h
    have hs := deconvolveCore_ok_shape prim twin c0 c1 c2 trL trQ trT trS
      trNl trNq out h
    refine ⟨hs.1, ?_⟩
    intro heq
    have hch := hs.1
    rw [heq] at hch
    simp only [placeholderRF, List.map_cons, List.map_nil, List.cons.injEq,
      and_true] at hch
    have h0 : ([] : List Char) = ['R', 'F', c0] := congrArg String.data hch.1
    exact absurd h0 (by simp)
  · intro h1
    cases hdc : deconvolveCore prim twin c0 c1 c2 trL trQ trT trS trNl trNq with
    | error e => exact ⟨e, rfl⟩
    | ok out =>
      have hs := deconvolveCore_ok_shape prim twin c0 c1 c2 trL trQ trT trS
        trNl trNq out hdc
      exact absurd ⟨hs.2.1.resolve_right h1, hs.2.2.1.resolve_right h1,
        hs.2.2.2.1.resolve_right h1, hs.2.2.2.2.resolve_right h1⟩ hmis

theorem C5_no_silent_placeholder_witness :
    (¬ (tzS.dat.length = trQw.dat.length ∧
        tzS.dat.length = tzS.dat.length ∧
        tzS.dat.length = tzS.dat.length ∧
        tzS.dat.length = tzS.dat.length)) ∧
    ((∀ out,
      deconvolveCore primFix 30 'Z' 'R' 'T' tzS trQw tzS tzS tzS tzS = .ok out →
        out.map TraceR.channel
            = [String.mk ['R', 'F', 'Z'], String.mk ['R', 'F', 'R'],
               String.mk ['R', 'F', 'T']] ∧
          out ≠ placeholderRF) ∧
    (tzS.dat.length ≠ 1 →
      ∃ e, deconvolveCore primFix 30 'Z' 'R' 'T' tzS trQw tzS tzS tzS tzS
        = .error e)) :=
  ⟨by simp [tzS, trQw],
    C5_no_silent_placeholder primFix 30 'Z' 'R' 'T' tzS trQw tzS tzS tzS tzS
      (by simp [tzS, trQw])⟩

theorem C9_missing_err_attribute_witness :
    sampleNoErr.meta.accept = true ∧ sampleNoErr.err = none ∧
    (rotate primFix none none none sampleNoErr = .error .attributeError ∧
     calcSnr primFix 30 (1 / 10) 1 sampleNoErr = .error .attributeError ∧
     deconvolve primFix 30 none sampleNoErr = .error .attributeError ∧
     toStream primFix sampleNoErr = .error .attributeError ∧
     (∀ st s', addNEZ st sampleNoErr = .ok s' → s'.err = none) ∧
     (∀ e tz tn te, downloadNEZ e tz tn te sampleNoErr =
         .ok { sampleNoErr with err := some e, dataS := some [tz, tn, te] })) :=
  ⟨rfl, rfl, C9_missing_err_attribute primFix none none none 30 (1 / 10) 1 30
    sampleNoErr rfl rfl⟩

end RfPy
